import Mathlib

/-!
Verification of the request-queuing and network-switching coordinator of
the `@metamask/queued-request-controller` package (the Request Queue
Coordinator, the Network-Switch Middleware and the Confirmation
Classifier).  The repository snapshot contains only the middleware's test
suite; the coordinator and middleware bodies themselves are therefore
modelled from the design document, with every constant (method names,
chain ids, error messages) pinned to the values the test suite exercises.
-/

namespace QRC

/-! ## Request Queue Coordinator (design §4.2)

The coordinator owns a single active slot and a FIFO list of pending
jobs.  A job is an opaque continuation; we represent it as its identifier
together with the ordered list of atomic actions its body performs and a
flag saying whether it settles with a failure.  The scheduler is a small
step machine: `enqueue` submits a job (starting it at once when the
coordinator is idle), and `tick` performs one atomic step of the active
job, settling it and immediately starting the next pending job when its
body is exhausted. -/

/-- Modelled from the spec: a job submitted to the Request Queue
Coordinator, abstracted as its identifier, the atomic actions of its
continuation body, and whether the continuation settles with a failure. -/
structure CoordJob (E : Type) where
  jid : Nat
  steps : List E
  fails : Bool

/-- Modelled from the spec: one entry of the global execution trace of
the coordinator: a job's continuation beginning, one atomic action of the
active job, or a job settling (with its failure flag). -/
inductive TraceEntry (E : Type) where
  | beginJob (jid : Nat)
  | act (jid : Nat) (e : E)
  | settled (jid : Nat) (failed : Bool)

/-- Modelled from the spec: the coordinator state — at most one active
job (its identifier, remaining actions and failure flag), the FIFO list
of pending jobs, and the global trace accumulated so far. -/
structure CoordState (E : Type) where
  active : Option (Nat × List E × Bool)
  pending : List (CoordJob E)
  trace : List (TraceEntry E)

variable {E : Type}

/-- Modelled from the spec: `enqueueRequest` — when the coordinator is
idle the submitted job starts immediately, otherwise it is appended to
the FIFO pending list. -/
def enqueue : CoordState E → CoordJob E → CoordState E
  | ⟨none, p, t⟩, j => ⟨some (j.jid, j.steps, j.fails), p, t ++ [.beginJob j.jid]⟩
  | ⟨some a, p, t⟩, j => ⟨some a, p ++ [j], t⟩

/-- Modelled from the spec: one scheduler step.  An idle coordinator does
nothing; an active job performs its next atomic action; a job whose body
is exhausted settles, and the coordinator immediately dequeues and starts
the next pending job (regardless of whether the settling job failed). -/
def tick : CoordState E → CoordState E
  | ⟨none, p, t⟩ => ⟨none, p, t⟩
  | ⟨some (jid, e :: rest, f), p, t⟩ =>
      ⟨some (jid, rest, f), p, t ++ [.act jid e]⟩
  | ⟨some (jid, [], f), [], t⟩ => ⟨none, [], t ++ [.settled jid f]⟩
  | ⟨some (jid, [], f), j :: js, t⟩ =>
      ⟨some (j.jid, j.steps, j.fails), js,
        t ++ [.settled jid f, .beginJob j.jid]⟩

/-- Iterate the scheduler a given number of steps. -/
def ticks : Nat → CoordState E → CoordState E
  | 0, s => s
  | n + 1, s => ticks n (tick s)

/-- Number of scheduler steps a single job consumes (its actions plus its
settlement step). -/
def jobTicks (j : CoordJob E) : Nat := j.steps.length + 1

/-- Total number of scheduler steps consumed by a list of jobs. -/
def totalTicks : List (CoordJob E) → Nat
  | [] => 0
  | j :: js => jobTicks j + totalTicks js

/-- Modelled from the spec: submit all jobs to the coordinator in order,
run the scheduler to quiescence, and return the global trace. -/
def coordRun (jobs : List (CoordJob E)) : List (TraceEntry E) :=
  (ticks (totalTicks jobs) (jobs.foldl enqueue ⟨none, [], []⟩)).trace

/-- The fully serialized trace of one job: its continuation begins, its
actions run in order, then it settles. -/
def jobTrace (j : CoordJob E) : List (TraceEntry E) :=
  .beginJob j.jid :: (j.steps.map (fun e => .act j.jid e) ++ [.settled j.jid j.fails])

/-- The trace obtained by running every job to settlement strictly one
after the other, in submission order. -/
def serialTrace : List (CoordJob E) → List (TraceEntry E)
  | [] => []
  | j :: js => jobTrace j ++ serialTrace js

/-! ## Confirmation Classifier (design §4.1) -/

/-- Modelled from the spec: the classification of an RPC method. -/
inductive MethodClass where
  | Bypass
  | RequiresConfirmation
  | IsNetworkSwitchRequest
deriving DecidableEq, Repr

/-- Modelled from the spec: the statically configured set of methods
requiring a user confirmation; the test suite pins
`eth_sendTransaction`. -/
def confirmationMethods : List String := ["eth_sendTransaction"]

/-- Modelled from the spec: the Confirmation Classifier, a pure function
of the method name.  `wallet_switchEthereumChain` is the dapp-initiated
network-switch request; the configured confirmation methods require a
confirmation; everything else bypasses the queue. -/
def classify (method : String) : MethodClass :=
  if method = "wallet_switchEthereumChain" then .IsNetworkSwitchRequest
  else if confirmationMethods.contains method then .RequiresConfirmation
  else .Bypass

/-! ## Network-Switch Middleware (design §4.3) -/

/-- Modelled from the spec: the static identifier-to-chain-id mapping for
built-in (Infura) networks; custom identifiers resolve to `none` and
require a Network Directory lookup. -/
def builtInChainId (networkClientId : String) : Option String :=
  if networkClientId = "mainnet" then some "0x1"
  else if networkClientId = "goerli" then some "0x5"
  else if networkClientId = "sepolia" then some "0xaa36a7"
  else none

/-- A JSON-RPC request as seen by the middleware: its id, method name,
and the optional `origin` and `networkClientId` fields whose absence is a
caller-input fault. -/
structure MwRequest where
  rid : Nat
  method : String
  origin : Option String
  networkClientId : Option String
deriving DecidableEq, Repr

/-- The observable calls the middleware makes on its collaborators, in
order: submitting to the coordinator, the Network Directory lookup, the
read of the Global Selected Network, the approval request, the two switch
actuation variants, the origin-map update, and the dispatch to the
downstream handler. -/
inductive MwEvent where
  | enqueueRequest
  | getNetworkClientById (networkClientId : String)
  | getProviderConfig
  | addRequest (origin : String) (targetChainId : String)
  | setProviderType (chainId : String)
  | setActiveNetwork (networkClientId : String)
  | setNetworkClientIdForDomain (origin : String) (networkClientId : String)
  | callNext
deriving DecidableEq, Repr

/-- The mutable shared state: the Global Selected Network's chain id and
the origin-to-network-client map (most recent binding first). -/
structure SharedState where
  currentChainId : String
  domainMap : List (String × String)
deriving DecidableEq, Repr

/-- The environment of one middleware invocation: the queueing feature
flag and the Network Directory (chain id configured for a custom network
client). -/
structure Env where
  useRequestQueue : Bool
  clientChainId : String → String

/-- The middleware's outcome for one request: the ordered collaborator
calls it made and the error written into the response slot, if any. -/
structure MwOutcome where
  events : List MwEvent
  responseError : Option String
deriving DecidableEq, Repr

/-- The two caller-input faults checked before any queue interaction. -/
inductive MwFailure where
  | missingOrigin
  | missingNetworkClientId
deriving DecidableEq, Repr

/-- The protocol error message of each caller-input fault. -/
def MwFailure.message : MwFailure → String
  | .missingOrigin => "Request object is lacking an \x27origin\x27"
  | .missingNetworkClientId => "Request object is lacking a \x27networkClientId\x27"

/-- Modelled from the spec: the outcomes of the fallible collaborator
calls one request may make — the Approval Channel's response, the switch
actuation (whichever variant runs), and the origin-map update.  Design
§6: each of these may fail with a propagated internal error. -/
structure CallOutcomes where
  approval : Except String Unit
  actuation : Except String Unit
  setDomain : Except String Unit

/-- A failure value belongs to a request's own collaborator outcomes:
its approval was declined with it, or its switch actuation or origin-map
update failed with it. -/
def ownFailure (c : CallOutcomes) (e : String) : Prop :=
  c.approval = .error e ∨ c.actuation = .error e ∨ c.setDomain = .error e

/-- Modelled from the spec: resolve a request's target chain id — a
built-in network client uses the static mapping with no collaborator
call, a custom one performs one Network Directory lookup. -/
def resolveTarget (env : Env) (ncid : String) : List MwEvent × String :=
  match builtInChainId ncid with
  | some cid => ([], cid)
  | none => ([.getNetworkClientById ncid], env.clientChainId ncid)

/-- The switch-actuation variant for a target network client: the
built-in variant (`setProviderType`) when the client is built-in, the
custom variant (`setActiveNetwork`) otherwise. -/
def switchEvent (ncid : String) : MwEvent :=
  match builtInChainId ncid with
  | some cid => .setProviderType cid
  | none => .setActiveNetwork ncid

/-- Modelled from the spec: the continuation body submitted to the
coordinator (design §4.3 steps a–e, including step (d)'s failure
sub-case).  A network-switch request skips straight to the downstream
dispatch; otherwise the target chain id is resolved, the Global Selected
Network is read, and when they differ an approval round-trip gates the
switch actuation and origin-map update.  A rejected approval writes the
serialized rejection into the response and skips the dispatch.  On
approval the switch actuation runs; if it fails, its failure is written
into the response and nothing further runs.  If it succeeds the global
chain commits and the origin-map update runs; if that fails, its failure
is written into the response and the dispatch is skipped.  Only when
every step succeeds is the downstream handler called.  `c` carries this
request's collaborator outcomes. -/
def continuation (env : Env) (o ncid method : String) (c : CallOutcomes)
    (s : SharedState) : (List MwEvent × Option String) × SharedState :=
  if classify method = .IsNetworkSwitchRequest then
    (([.callNext], none), s)
  else
    let look := (resolveTarget env ncid).1
    let target := (resolveTarget env ncid).2
    if target = s.currentChainId then
      ((look ++ [.getProviderConfig, .callNext], none), s)
    else
      match c.approval with
      | .error e =>
          ((look ++ [.getProviderConfig, .addRequest o target], some e), s)
      | .ok _ =>
          match c.actuation with
          | .error e =>
              ((look ++ [.getProviderConfig, .addRequest o target,
                  switchEvent ncid], some e), s)
          | .ok _ =>
              match c.setDomain with
              | .error e =>
                  ((look ++ [.getProviderConfig, .addRequest o target,
                      switchEvent ncid, .setNetworkClientIdForDomain o ncid],
                    some e),
                    ⟨target, s.domainMap⟩)
              | .ok _ =>
                  ((look ++ [.getProviderConfig, .addRequest o target,
                      switchEvent ncid, .setNetworkClientIdForDomain o ncid,
                      .callNext], none),
                    ⟨target, (o, ncid) :: s.domainMap⟩)

/-- Modelled from the spec: the Network-Switch Middleware for one
request.  Missing `origin` or `networkClientId` fail before any queue
interaction; with queueing disabled or a bypass method the downstream
handler is called directly outside the queue; otherwise the request is
submitted to the coordinator and its continuation body runs. -/
def middleware (env : Env) (req : MwRequest) (c : CallOutcomes)
    (s : SharedState) : Except MwFailure (MwOutcome × SharedState) :=
  match req.origin with
  | none => .error .missingOrigin
  | some o =>
    match req.networkClientId with
    | none => .error .missingNetworkClientId
    | some ncid =>
      if env.useRequestQueue = false then .ok (⟨[.callNext], none⟩, s)
      else if classify req.method = .Bypass then .ok (⟨[.callNext], none⟩, s)
      else
        let r := continuation env o ncid req.method c s
        .ok (⟨.enqueueRequest :: r.1.1, r.1.2⟩, r.2)

/-- Run a list of requests (each paired with its own collaborator
outcomes) through the middleware one after the other, threading the
shared state, as the coordinator's serialization guarantees. -/
def runRequests (env : Env) : SharedState → List (MwRequest × CallOutcomes) →
    List (Except MwFailure MwOutcome) × SharedState
  | s, [] => ([], s)
  | s, (r, c) :: rest =>
    match middleware env r c s with
    | .error f =>
        let res := runRequests env s rest
        (.error f :: res.1, res.2)
    | .ok (o, s1) =>
        let res := runRequests env s1 rest
        (.ok o :: res.1, res.2)

/-- Event predicate: a Network Directory lookup call. -/
def isGetClientConfig : MwEvent → Bool
  | .getNetworkClientById _ => true
  | _ => false

/-- Event predicate: an approval request call. -/
def isApprovalCall : MwEvent → Bool
  | .addRequest _ _ => true
  | _ => false

/-- Event predicate: a switch-actuation call (either variant). -/
def isSwitchActuation : MwEvent → Bool
  | .setProviderType _ => true
  | .setActiveNetwork _ => true
  | _ => false

/-- Event predicate: an origin-map update call. -/
def isSetDomainCall : MwEvent → Bool
  | .setNetworkClientIdForDomain _ _ => true
  | _ => false

/-- Isolation predicate: a request's response error, if any, came from
that request's own collaborator outcomes — its own declined approval or
its own failed actuation or origin-map update, never another request's
(a precondition fault produces no response at all at this layer). -/
def errorFromOwnOutcomes (c : CallOutcomes) :
    Except MwFailure MwOutcome → Prop
  | .error _ => True
  | .ok o => o.responseError = none ∨ ∃ e, ownFailure c e ∧ o.responseError = some e

/-! ## Coordinator lemmas -/

theorem ticks_add (m n : Nat) (s : CoordState E) :
    ticks (m + n) s = ticks n (ticks m s) := by
  induction m generalizing s with
  | zero => simp [ticks, Nat.zero_add]
  | succ k ih =>
      rw [Nat.succ_add]
      show ticks (k + n) (tick s) = ticks n (ticks k (tick s))
      exact ih (tick s)

theorem ticks_steps (steps : List E) :
    ∀ (jid : Nat) (f : Bool) (p : List (CoordJob E)) (t : List (TraceEntry E)),
    ticks steps.length ⟨some (jid, steps, f), p, t⟩
      = ⟨some (jid, [], f), p, t ++ steps.map (fun e => TraceEntry.act jid e)⟩ := by
  induction steps with
  | nil => intro jid f p t; simp [ticks]
  | cons e rest ih =>
      intro jid f p t
      show ticks rest.length (tick ⟨some (jid, e :: rest, f), p, t⟩) = _
      rw [show tick (⟨some (jid, e :: rest, f), p, t⟩ : CoordState E)
            = ⟨some (jid, rest, f), p, t ++ [.act jid e]⟩ from rfl]
      rw [ih jid f p (t ++ [TraceEntry.act jid e])]
      simp

theorem ticks_drain (p : List (CoordJob E)) :
    ∀ (jid : Nat) (steps : List E) (f : Bool) (t : List (TraceEntry E)),
    ticks (steps.length + 1 + totalTicks p) ⟨some (jid, steps, f), p, t⟩
      = ⟨none, [],
          t ++ steps.map (fun e => TraceEntry.act jid e) ++ [.settled jid f]
            ++ serialTrace p⟩ := by
  induction p with
  | nil =>
      intro jid steps f t
      rw [show totalTicks ([] : List (CoordJob E)) = 0 from rfl]
      rw [ticks_add (steps.length + 1) 0]
      rw [ticks_add steps.length 1]
      rw [ticks_steps steps jid f [] t]
      show ticks 0 (ticks 0 (tick _)) = _
      rw [show tick (⟨some (jid, [], f), [], t ++ steps.map (fun e => TraceEntry.act jid e)⟩ : CoordState E)
            = ⟨none, [], t ++ steps.map (fun e => TraceEntry.act jid e) ++ [.settled jid f]⟩ from rfl]
      simp [ticks, serialTrace]
  | cons j js ih =>
      intro jid steps f t
      rw [show totalTicks (j :: js) = (j.steps.length + 1) + totalTicks js from rfl]
      rw [show steps.length + 1 + (j.steps.length + 1 + totalTicks js)
            = (steps.length + 1) + (j.steps.length + 1 + totalTicks js) from rfl]
      rw [ticks_add (steps.length + 1) (j.steps.length + 1 + totalTicks js)]
      rw [ticks_add steps.length 1]
      rw [ticks_steps steps jid f (j :: js) t]
      show ticks (j.steps.length + 1 + totalTicks js) (ticks 0 (tick _)) = _
      rw [show tick (⟨some (jid, [], f), j :: js,
              t ++ steps.map (fun e => TraceEntry.act jid e)⟩ : CoordState E)
            = ⟨some (j.jid, j.steps, j.fails), js,
                t ++ steps.map (fun e => TraceEntry.act jid e)
                  ++ [.settled jid f, .beginJob j.jid]⟩ from rfl]
      show ticks (j.steps.length + 1 + totalTicks js)
            (⟨some (j.jid, j.steps, j.fails), js, _⟩ : CoordState E) = _
      rw [ih j.jid j.steps j.fails _]
      simp [serialTrace, jobTrace]

theorem foldl_enqueue_busy (js : List (CoordJob E)) :
    ∀ (a : Nat × List E × Bool) (p : List (CoordJob E)) (t : List (TraceEntry E)),
    js.foldl enqueue ⟨some a, p, t⟩ = ⟨some a, p ++ js, t⟩ := by
  induction js with
  | nil => intro a p t; simp
  | cons j js ih =>
      intro a p t
      rw [List.foldl_cons]
      rw [show enqueue (⟨some a, p, t⟩ : CoordState E) j = ⟨some a, p ++ [j], t⟩ from rfl]
      rw [ih a (p ++ [j]) t]
      simp

/-! ## Middleware lemmas -/

theorem middleware_queued (env : Env) (rid : Nat) (o ncid method : String)
    (c : CallOutcomes) (s : SharedState)
    (hq : env.useRequestQueue = true)
    (hby : classify method ≠ .Bypass) :
    middleware env ⟨rid, method, some o, some ncid⟩ c s =
      .ok (⟨.enqueueRequest :: (continuation env o ncid method c s).1.1,
            (continuation env o ncid method c s).1.2⟩,
          (continuation env o ncid method c s).2) := by
  simp [middleware, hq, hby]

theorem continuation_switchReq (env : Env) (o ncid method : String)
    (c : CallOutcomes) (s : SharedState)
    (h : classify method = .IsNetworkSwitchRequest) :
    continuation env o ncid method c s = (([.callNext], none), s) := by
  simp [continuation, h]

theorem continuation_sameChain (env : Env) (o ncid method : String)
    (c : CallOutcomes) (s : SharedState)
    (h1 : classify method ≠ .IsNetworkSwitchRequest)
    (h2 : (resolveTarget env ncid).2 = s.currentChainId) :
    continuation env o ncid method c s =
      (((resolveTarget env ncid).1 ++ [.getProviderConfig, .callNext], none), s) := by
  simp [continuation, h1, h2]

theorem continuation_rejected (env : Env) (o ncid method e : String)
    (c : CallOutcomes) (s : SharedState)
    (h1 : classify method ≠ .IsNetworkSwitchRequest)
    (h2 : (resolveTarget env ncid).2 ≠ s.currentChainId)
    (ha : c.approval = .error e) :
    continuation env o ncid method c s =
      (((resolveTarget env ncid).1
          ++ [.getProviderConfig, .addRequest o (resolveTarget env ncid).2],
        some e), s) := by
  simp [continuation, h1, h2, ha]

theorem continuation_switchFailed (env : Env) (o ncid method e : String)
    (c : CallOutcomes) (s : SharedState)
    (h1 : classify method ≠ .IsNetworkSwitchRequest)
    (h2 : (resolveTarget env ncid).2 ≠ s.currentChainId)
    (ha : c.approval = .ok ())
    (hact : c.actuation = .error e) :
    continuation env o ncid method c s =
      (((resolveTarget env ncid).1
          ++ [.getProviderConfig, .addRequest o (resolveTarget env ncid).2,
              switchEvent ncid],
        some e), s) := by
  simp [continuation, h1, h2, ha, hact]

theorem continuation_domainFailed (env : Env) (o ncid method e : String)
    (c : CallOutcomes) (s : SharedState)
    (h1 : classify method ≠ .IsNetworkSwitchRequest)
    (h2 : (resolveTarget env ncid).2 ≠ s.currentChainId)
    (ha : c.approval = .ok ())
    (hact : c.actuation = .ok ())
    (hsd : c.setDomain = .error e) :
    continuation env o ncid method c s =
      (((resolveTarget env ncid).1
          ++ [.getProviderConfig, .addRequest o (resolveTarget env ncid).2,
              switchEvent ncid, .setNetworkClientIdForDomain o ncid],
        some e),
        ⟨(resolveTarget env ncid).2, s.domainMap⟩) := by
  simp [continuation, h1, h2, ha, hact, hsd]

theorem continuation_approved (env : Env) (o ncid method : String)
    (c : CallOutcomes) (s : SharedState)
    (h1 : classify method ≠ .IsNetworkSwitchRequest)
    (h2 : (resolveTarget env ncid).2 ≠ s.currentChainId)
    (ha : c.approval = .ok ())
    (hact : c.actuation = .ok ())
    (hsd : c.setDomain = .ok ()) :
    continuation env o ncid method c s =
      (((resolveTarget env ncid).1
          ++ [.getProviderConfig, .addRequest o (resolveTarget env ncid).2,
              switchEvent ncid, .setNetworkClientIdForDomain o ncid, .callNext],
        none),
        ⟨(resolveTarget env ncid).2, (o, ncid) :: s.domainMap⟩) := by
  simp [continuation, h1, h2, ha, hact, hsd]

theorem continuation_error_own (env : Env) (o ncid method : String)
    (c : CallOutcomes) (s : SharedState) :
    (continuation env o ncid method c s).1.2 = none ∨
      ∃ e, ownFailure c e ∧ (continuation env o ncid method c s).1.2 = some e := by
  by_cases h1 : classify method = .IsNetworkSwitchRequest
  · left; simp [continuation, h1]
  · by_cases h2 : (resolveTarget env ncid).2 = s.currentChainId
    · left; simp [continuation, h1, h2]
    · cases ha : c.approval with
      | error e =>
          right
          exact ⟨e, Or.inl ha, by simp [continuation, h1, h2, ha]⟩
      | ok u =>
          cases u
          cases hact : c.actuation with
          | error e =>
              right
              exact ⟨e, Or.inr (Or.inl hact),
                by simp [continuation, h1, h2, ha, hact]⟩
          | ok u2 =>
              cases u2
              cases hsd : c.setDomain with
              | error e =>
                  right
                  exact ⟨e, Or.inr (Or.inr hsd),
                    by simp [continuation, h1, h2, ha, hact, hsd]⟩
              | ok u3 =>
                  cases u3
                  left
                  simp [continuation, h1, h2, ha, hact, hsd]

theorem middleware_error_own (env : Env) (r : MwRequest) (c : CallOutcomes)
    (s : SharedState) :
    ∀ ot st, middleware env r c s = .ok (ot, st) →
      ot.responseError = none ∨ ∃ e, ownFailure c e ∧ ot.responseError = some e := by
  intro ot st h
  obtain ⟨rid, m, og, nc⟩ := r
  cases og with
  | none => simp [middleware] at h
  | some o =>
    cases nc with
    | none => simp [middleware] at h
    | some ncid =>
      by_cases hq : env.useRequestQueue = false
      · simp [middleware, hq] at h
        left
        rw [← h.1]
      · by_cases hb : classify m = .Bypass
        · simp [middleware, hq, hb] at h
          left
          rw [← h.1]
        · simp [middleware, hq, hb] at h
          rcases continuation_error_own env o ncid m c s with hnone | ⟨e, hown, hsome⟩
          · left; rw [← h.1]; exact hnone
          · right; exact ⟨e, hown, by rw [← h.1]; exact hsome⟩

theorem runRequests_isolated (env : Env) :
    ∀ (reqs : List (MwRequest × CallOutcomes)) (s : SharedState),
    List.Forall₂ (fun p r => errorFromOwnOutcomes p.2 r) reqs
      (runRequests env s reqs).1 := by
  intro reqs
  induction reqs with
  | nil => intro s; exact List.Forall₂.nil
  | cons pr rest ih =>
      intro s
      obtain ⟨r, c⟩ := pr
      cases hmw : middleware env r c s with
      | error f =>
          rw [show (runRequests env s ((r, c) :: rest)).1
                = .error f :: (runRequests env s rest).1 by
              simp [runRequests, hmw]]
          exact List.Forall₂.cons (by simp [errorFromOwnOutcomes]) (ih s)
      | ok pair =>
          obtain ⟨ot, s1⟩ := pair
          rw [show (runRequests env s ((r, c) :: rest)).1
                = .ok ot :: (runRequests env s1 rest).1 by
              simp [runRequests, hmw]]
          refine List.Forall₂.cons ?_ (ih s1)
          have := middleware_error_own env r c s ot s1 hmw
          simpa [errorFromOwnOutcomes] using this

/-! ## Claim theorems -/

/-- Claim C1: the Request Queue Coordinator's enqueue operation provides
global mutual exclusion over submitted jobs: the global trace of any run
is exactly the per-job traces concatenated in submission order, so no two
job bodies interleave, each job's continuation begins only after the
previous job has fully settled, and a job's failure never prevents the
next job from starting (every job's begin and settlement entries appear
regardless of the failure flags). -/
theorem c1_coordinator_serializes (E : Type) (jobs : List (CoordJob E)) :
    coordRun jobs = serialTrace jobs := by
  cases jobs with
  | nil => rfl
  | cons j js =>
      show (ticks (totalTicks (j :: js))
              ((j :: js).foldl enqueue ⟨none, [], []⟩)).trace = _
      rw [List.foldl_cons]
      rw [show enqueue (⟨none, [], []⟩ : CoordState E) j
            = ⟨some (j.jid, j.steps, j.fails), [], [.beginJob j.jid]⟩ from rfl]
      rw [foldl_enqueue_busy js (j.jid, j.steps, j.fails) [] [TraceEntry.beginJob j.jid]]
      rw [show totalTicks (j :: js) = j.steps.length + 1 + totalTicks js from rfl]
      rw [show ([] : List (CoordJob E)) ++ js = js from rfl]
      rw [ticks_drain js j.jid j.steps j.fails [TraceEntry.beginJob j.jid]]
      simp [serialTrace, jobTrace]

/-- Claim C10: the Confirmation Classifier maps `eth_chainId` to Bypass,
`eth_sendTransaction` to RequiresConfirmation, and
`wallet_switchEthereumChain` to IsNetworkSwitchRequest; by construction
`classify` is a pure function of the method name alone. -/
theorem c10_classifier_map :
    classify "eth_chainId" = .Bypass ∧
    classify "eth_sendTransaction" = .RequiresConfirmation ∧
    classify "wallet_switchEthereumChain" = .IsNetworkSwitchRequest := by
  refine ⟨?_, ?_, ?_⟩ <;> decide

/-- Claim C6: a request whose method is a network-switch request (valid
origin and networkClientId, queueing enabled) is enqueued, and its
continuation calls only the downstream handler: no Network Directory
lookup, no read of the Global Selected Network, and no approval
request. -/
theorem c6_switch_request_skips_checks (env : Env) (rid : Nat)
    (o ncid method : String) (c : CallOutcomes) (s : SharedState)
    (hq : env.useRequestQueue = true)
    (hc : classify method = .IsNetworkSwitchRequest) :
    middleware env ⟨rid, method, some o, some ncid⟩ c s =
      .ok (⟨[.enqueueRequest, .callNext], none⟩, s) := by
  rw [middleware_queued env rid o ncid method c s hq (by rw [hc]; decide)]
  rw [continuation_switchReq env o ncid method c s hc]

/-- Claim C8: a request whose method is classified Bypass (valid origin
and networkClientId, queueing enabled) calls the downstream handler
directly outside the queue: no enqueue, no Network Directory lookup, no
approval request. -/
theorem c8_bypass_direct (env : Env) (rid : Nat) (o ncid method : String)
    (c : CallOutcomes) (s : SharedState)
    (hq : env.useRequestQueue = true)
    (hc : classify method = .Bypass) :
    middleware env ⟨rid, method, some o, some ncid⟩ c s =
      .ok (⟨[.callNext], none⟩, s) := by
  simp [middleware, hq, hc]

/-- Claim C9: for any request with valid origin and networkClientId,
when the queueing feature flag is disabled the middleware calls the
downstream handler directly and never invokes the coordinator,
regardless of the method's classification. -/
theorem c9_queue_disabled_direct (env : Env) (rid : Nat)
    (o ncid method : String) (c : CallOutcomes) (s : SharedState)
    (hq : env.useRequestQueue = false) :
    middleware env ⟨rid, method, some o, some ncid⟩ c s =
      .ok (⟨[.callNext], none⟩, s) := by
  simp [middleware, hq]

/-- Claim C7: a request whose method requires confirmation and whose
resolved target chain id equals the current global chain id (valid
fields, queueing enabled) is enqueued and eventually dispatched
downstream, but no approval request is ever made. -/
theorem c7_same_chain_no_approval (env : Env) (rid : Nat)
    (o ncid method : String) (c : CallOutcomes) (s : SharedState)
    (hq : env.useRequestQueue = true)
    (hc : classify method = .RequiresConfirmation)
    (heq : (resolveTarget env ncid).2 = s.currentChainId) :
    ∃ evs, middleware env ⟨rid, method, some o, some ncid⟩ c s
        = .ok (⟨evs, none⟩, s) ∧
      MwEvent.enqueueRequest ∈ evs ∧ MwEvent.callNext ∈ evs ∧
      evs.countP isApprovalCall = 0 := by
  have hsw : classify method ≠ .IsNetworkSwitchRequest := by rw [hc]; decide
  have hby : classify method ≠ .Bypass := by rw [hc]; decide
  rw [middleware_queued env rid o ncid method c s hq hby]
  rw [continuation_sameChain env o ncid method c s hsw heq]
  refine ⟨_, rfl, ?_, ?_, ?_⟩ <;>
    cases hb : builtInChainId ncid <;>
      simp [resolveTarget, hb, isApprovalCall, List.countP_cons, List.countP_append]

/-- Claim C2, counterexample to the claim as stated: an
`eth_sendTransaction` request from `mainnet` (target `0x1`) while the
global chain is `0x5`, whose approval is granted but whose switch
actuation fails, makes its single actuation call yet zero
`setNetworkClientIdForDomain` calls and never reaches the downstream
dispatch — so it is not true that on approval exactly one
`setNetworkClientForOrigin` call occurs before `next()` is called. -/
theorem c2_counterexample :
    middleware ⟨true, fun x => "0x1"⟩
        ⟨1, "eth_sendTransaction", some "example.com", some "mainnet"⟩
        ⟨.ok (), .error "switch failure", .ok ()⟩ ⟨"0x5", []⟩
      = .ok (⟨[.enqueueRequest, .getProviderConfig,
            .addRequest "example.com" "0x1", .setProviderType "0x1"],
          some "switch failure"⟩, ⟨"0x5", []⟩) ∧
    ([MwEvent.enqueueRequest, .getProviderConfig,
        .addRequest "example.com" "0x1",
        .setProviderType "0x1"].countP isSetDomainCall = 0) ∧
    ([MwEvent.enqueueRequest, .getProviderConfig,
        .addRequest "example.com" "0x1",
        .setProviderType "0x1"].countP isSwitchActuation = 1) ∧
    MwEvent.callNext ∉ [MwEvent.enqueueRequest, .getProviderConfig,
        .addRequest "example.com" "0x1", .setProviderType "0x1"] := by
  refine ⟨rfl, rfl, rfl, by decide⟩

/-- Claim C2 (amended): a request with valid origin and networkClientId,
queueing enabled, a confirmation-requiring method and a resolved target
chain id differing from the current global chain id triggers exactly one
approval request; on approval exactly one switch-actuation call occurs;
when the actuation and the origin-map update both succeed, exactly one
origin-map update occurs and both precede the downstream dispatch; when
the actuation fails its failure is written into the response, the
origin-map is never updated and the dispatch never runs; when the
origin-map update fails its failure is written into the response and the
dispatch never runs. -/
theorem c2_requires_switch_flow (env : Env) (rid : Nat)
    (o ncid method : String) (c : CallOutcomes) (s : SharedState)
    (hq : env.useRequestQueue = true)
    (hc : classify method = .RequiresConfirmation)
    (hne : (resolveTarget env ncid).2 ≠ s.currentChainId) :
    ∃ evs err s',
      middleware env ⟨rid, method, some o, some ncid⟩ c s = .ok (⟨evs, err⟩, s') ∧
      evs.countP isApprovalCall = 1 ∧
      (c.approval = .ok () → evs.countP isSwitchActuation = 1) ∧
      (c.approval = .ok () → c.actuation = .ok () → c.setDomain = .ok () →
        ∃ pre, evs = pre ++ [.callNext] ∧
          pre.countP isSwitchActuation = 1 ∧ pre.countP isSetDomainCall = 1 ∧
          MwEvent.callNext ∉ pre) ∧
      (c.approval = .ok () → ∀ e, c.actuation = .error e →
        err = some e ∧ evs.countP isSetDomainCall = 0 ∧
        MwEvent.callNext ∉ evs) ∧
      (c.approval = .ok () → c.actuation = .ok () → ∀ e, c.setDomain = .error e →
        err = some e ∧ MwEvent.callNext ∉ evs) := by
  have hsw : classify method ≠ .IsNetworkSwitchRequest := by rw [hc]; decide
  have hby : classify method ≠ .Bypass := by rw [hc]; decide
  rw [middleware_queued env rid o ncid method c s hq hby]
  cases ha : c.approval with
  | error e =>
      rw [continuation_rejected env o ncid method e c s hsw hne ha]
      refine ⟨_, _, _, rfl, ?_, ?_, ?_, ?_, ?_⟩
      · cases hb : builtInChainId ncid <;>
          simp [resolveTarget, hb, isApprovalCall, List.countP_cons, List.countP_append]
      · intro h; exact absurd h (by simp)
      · intro h; exact absurd h (by simp)
      · intro h; exact absurd h (by simp)
      · intro h; exact absurd h (by simp)
  | ok u =>
      cases u
      cases hact : c.actuation with
      | error e0 =>
          rw [continuation_switchFailed env o ncid method e0 c s hsw hne ha hact]
          refine ⟨_, _, _, rfl, ?_, ?_, ?_, ?_, ?_⟩
          · cases hb : builtInChainId ncid <;>
              simp [resolveTarget, hb, switchEvent, isApprovalCall,
                List.countP_cons, List.countP_append]
          · intro _
            cases hb : builtInChainId ncid <;>
              simp [resolveTarget, hb, switchEvent, isSwitchActuation,
                List.countP_cons, List.countP_append]
          · intro _ h2
            exact absurd h2 (by simp)
          · intro _ e he
            have : e0 = e := by injection he
            subst this
            refine ⟨rfl, ?_, ?_⟩
            · cases hb : builtInChainId ncid <;>
                simp [resolveTarget, hb, switchEvent, isSetDomainCall,
                  List.countP_cons, List.countP_append]
            · cases hb : builtInChainId ncid <;>
                simp [resolveTarget, hb, switchEvent]
          · intro _ h2
            exact absurd h2 (by simp)
      | ok u2 =>
          cases u2
          cases hsd : c.setDomain with
          | error e0 =>
              rw [continuation_domainFailed env o ncid method e0 c s hsw hne ha
                hact hsd]
              refine ⟨_, _, _, rfl, ?_, ?_, ?_, ?_, ?_⟩
              · cases hb : builtInChainId ncid <;>
                  simp [resolveTarget, hb, switchEvent, isApprovalCall,
                    List.countP_cons, List.countP_append]
              · intro _
                cases hb : builtInChainId ncid <;>
                  simp [resolveTarget, hb, switchEvent, isSwitchActuation,
                    List.countP_cons, List.countP_append]
              · intro _ _ h3
                exact absurd h3 (by simp)
              · intro _ e he
                exact absurd he (by simp)
              · intro _ _ e he
                have : e0 = e := by injection he
                subst this
                refine ⟨rfl, ?_⟩
                cases hb : builtInChainId ncid <;>
                  simp [resolveTarget, hb, switchEvent]
          | ok u3 =>
              cases u3
              rw [continuation_approved env o ncid method c s hsw hne ha hact hsd]
              refine ⟨_, _, _, rfl, ?_, ?_, ?_, ?_, ?_⟩
              · cases hb : builtInChainId ncid <;>
                  simp [resolveTarget, hb, switchEvent, isApprovalCall,
                    List.countP_cons, List.countP_append]
              · intro _
                cases hb : builtInChainId ncid <;>
                  simp [resolveTarget, hb, switchEvent, isSwitchActuation,
                    List.countP_cons, List.countP_append]
              · intro _ _ _
                refine ⟨.enqueueRequest :: ((resolveTarget env ncid).1
                    ++ [.getProviderConfig, .addRequest o (resolveTarget env ncid).2,
                        switchEvent ncid, .setNetworkClientIdForDomain o ncid]),
                    ?_, ?_, ?_, ?_⟩
                · simp
                · cases hb : builtInChainId ncid <;>
                    simp [resolveTarget, hb, switchEvent, isSwitchActuation,
                      List.countP_cons, List.countP_append]
                · cases hb : builtInChainId ncid <;>
                    simp [resolveTarget, hb, switchEvent, isSetDomainCall,
                      List.countP_cons, List.countP_append]
                · cases hb : builtInChainId ncid <;>
                    simp [resolveTarget, hb, switchEvent]
              · intro _ e he
                exact absurd he (by simp)
              · intro _ _ e he
                exact absurd he (by simp)

/-- Claim C3: a queued confirmation-requiring request whose approval
round-trip rejects gets the rejection written into its own response
error, is never dispatched downstream, never updates the origin map, and
leaves the shared state unchanged; and in any run of requests through
the queue, every request's response error comes only from that request's
own approval outcome (so one request's failure never appears in another
request's response) and the queue produces a settlement for every
submitted request. -/
theorem c3_rejection_isolated :
    (∀ (env : Env) (rid : Nat) (o ncid method e : String) (c : CallOutcomes)
        (s : SharedState),
      env.useRequestQueue = true →
      classify method = .RequiresConfirmation →
      (resolveTarget env ncid).2 ≠ s.currentChainId →
      c.approval = .error e →
      ∃ evs, middleware env ⟨rid, method, some o, some ncid⟩ c s
          = .ok (⟨evs, some e⟩, s) ∧
        MwEvent.callNext ∉ evs ∧
        ∀ x y, MwEvent.setNetworkClientIdForDomain x y ∉ evs) ∧
    (∀ (env : Env) (s : SharedState)
        (reqs : List (MwRequest × CallOutcomes)),
      List.Forall₂ (fun p r => errorFromOwnOutcomes p.2 r) reqs
        (runRequests env s reqs).1 ∧
      (runRequests env s reqs).1.length = reqs.length) := by
  constructor
  · intro env rid o ncid method e c s hq hc hne ha
    have hsw : classify method ≠ .IsNetworkSwitchRequest := by rw [hc]; decide
    have hby : classify method ≠ .Bypass := by rw [hc]; decide
    rw [middleware_queued env rid o ncid method c s hq hby]
    rw [continuation_rejected env o ncid method e c s hsw hne ha]
    refine ⟨_, rfl, ?_, ?_⟩
    · cases hb : builtInChainId ncid <;> simp [resolveTarget, hb]
    · intro x y; cases hb : builtInChainId ncid <;> simp [resolveTarget, hb]
  · intro env s reqs
    have h := runRequests_isolated env reqs s
    exact ⟨h, (List.Forall₂.length_eq h).symm⟩

/-- Claim C4, counterexample to the claim as stated: a request lacking
both fields has an absent networkClientId, yet the middleware fails with
MissingOriginError, not MissingNetworkClidError — the origin check runs
first, so the second half of the claim does not hold for every request
whose networkClientId is absent. -/
theorem c4_counterexample :
    middleware ⟨true, fun x => "0x1"⟩
        ⟨0, "eth_sendTransaction", none, none⟩ ⟨.ok (), .ok (), .ok ()⟩ ⟨"0x1", []⟩
      = .error .missingOrigin ∧
    middleware ⟨true, fun x => "0x1"⟩
        ⟨0, "eth_sendTransaction", none, none⟩ ⟨.ok (), .ok (), .ok ()⟩ ⟨"0x1", []⟩
      ≠ .error .missingNetworkClientId := by
  constructor
  · rfl
  · intro h
    simp [middleware] at h

/-- Claim C4 (amended): a request whose origin is absent fails with
MissingOriginError, and a request whose origin is present but whose
networkClientId is absent fails with MissingNetworkClientIdError; both
failures happen before any queue interaction, regardless of the queueing
flag, and their messages identify the missing field. -/
theorem c4_missing_field_errors (env : Env) (req : MwRequest)
    (c : CallOutcomes) (s : SharedState) :
    (req.origin = none → middleware env req c s = .error .missingOrigin) ∧
    (∀ o, req.origin = some o → req.networkClientId = none →
      middleware env req c s = .error .missingNetworkClientId) ∧
    MwFailure.message .missingOrigin
      = "Request object is lacking an \x27origin\x27" ∧
    MwFailure.message .missingNetworkClientId
      = "Request object is lacking a \x27networkClientId\x27" := by
  obtain ⟨rid, m, og, nc⟩ := req
  refine ⟨?_, ?_, rfl, rfl⟩
  · intro h
    cases og with
    | none => rfl
    | some o => simp at h
  · intro o ho hn
    cases og with
    | none => simp at ho
    | some o2 =>
        cases nc with
        | none => rfl
        | some n2 => simp at hn

/-- Claim C5, counterexample to the claim as stated: a queued
network-switch request (`wallet_switchEthereumChain`) whose
networkClientId names a custom network is enqueued yet never calls the
Network Directory — so it is not true that every queued request with a
custom networkClientId triggers a `getClientConfig` lookup. -/
theorem c5_counterexample :
    builtInChainId "custom-rpc.com" = none ∧
    middleware ⟨true, fun x => "0x1234"⟩
        ⟨1, "wallet_switchEthereumChain", some "example.com", some "custom-rpc.com"⟩
        ⟨.ok (), .ok (), .ok ()⟩ ⟨"0x1", []⟩
      = .ok (⟨[.enqueueRequest, .callNext], none⟩, ⟨"0x1", []⟩) ∧
    ([MwEvent.enqueueRequest, MwEvent.callNext].countP isGetClientConfig = 0) := by
  refine ⟨rfl, ?_, rfl⟩
  rfl

/-- Claim C5 (amended): for every queued request whose networkClientId
names a built-in network the Network Directory is never consulted and
any switch actuation uses the built-in variant with that network's
static chain id; for every queued request classified RequiresConfirmation
whose networkClientId names a custom network, the Network Directory is
consulted exactly once with exactly that identifier and any switch
actuation uses the custom variant with that identifier. -/
theorem c5_network_paths (env : Env) (rid : Nat) (o ncid method : String)
    (c : CallOutcomes) (s : SharedState)
    (hq : env.useRequestQueue = true)
    (hby : classify method ≠ .Bypass) :
    ∃ evs err s',
      middleware env ⟨rid, method, some o, some ncid⟩ c s = .ok (⟨evs, err⟩, s') ∧
      (∀ cid, builtInChainId ncid = some cid →
        evs.countP isGetClientConfig = 0 ∧
        ∀ ev ∈ evs, isSwitchActuation ev = true → ev = .setProviderType cid) ∧
      (builtInChainId ncid = none → classify method = .RequiresConfirmation →
        evs.countP isGetClientConfig = 1 ∧
        (∀ ev ∈ evs, isGetClientConfig ev = true → ev = .getNetworkClientById ncid) ∧
        (∀ ev ∈ evs, isSwitchActuation ev = true → ev = .setActiveNetwork ncid)) := by
  rw [middleware_queued env rid o ncid method c s hq hby]
  by_cases hsw : classify method = .IsNetworkSwitchRequest
  · rw [continuation_switchReq env o ncid method c s hsw]
    refine ⟨_, _, _, rfl, ?_, ?_⟩
    · intro cid hb
      refine ⟨rfl, ?_⟩
      intro ev hev hact
      simp at hev
      rcases hev with h | h <;> subst h <;> simp [isSwitchActuation] at hact
    · intro hb hcf
      rw [hsw] at hcf
      exact absurd hcf (by decide)
  · by_cases heq : (resolveTarget env ncid).2 = s.currentChainId
    · rw [continuation_sameChain env o ncid method c s hsw heq]
      refine ⟨_, _, _, rfl, ?_, ?_⟩
      · intro cid hb
        constructor
        · simp [resolveTarget, hb, isGetClientConfig,
            List.countP_cons, List.countP_append]
        · intro ev hev hact
          simp [resolveTarget, hb] at hev
          rcases hev with h | h | h <;> subst h <;>
            simp [isSwitchActuation] at hact
      · intro hb hcf
        refine ⟨?_, ?_, ?_⟩
        · simp [resolveTarget, hb, isGetClientConfig,
            List.countP_cons, List.countP_append]
        · intro ev hev hget
          simp [resolveTarget, hb] at hev
          rcases hev with h | h | h | h <;> subst h <;>
            first
            | rfl
            | simp [isGetClientConfig] at hget
        · intro ev hev hact
          simp [resolveTarget, hb] at hev
          rcases hev with h | h | h | h <;> subst h <;>
            simp [isSwitchActuation] at hact
    · cases ha : c.approval with
      | error e =>
          rw [continuation_rejected env o ncid method e c s hsw heq ha]
          refine ⟨_, _, _, rfl, ?_, ?_⟩
          · intro cid hb
            constructor
            · simp [resolveTarget, hb, isGetClientConfig,
                List.countP_cons, List.countP_append]
            · intro ev hev hact
              simp [resolveTarget, hb] at hev
              rcases hev with h | h | h <;> subst h <;>
                simp [isSwitchActuation] at hact
          · intro hb hcf
            refine ⟨?_, ?_, ?_⟩
            · simp [resolveTarget, hb, isGetClientConfig,
                List.countP_cons, List.countP_append]
            · intro ev hev hget
              simp [resolveTarget, hb] at hev
              rcases hev with h | h | h | h <;> subst h <;>
                first
                | rfl
                | simp [isGetClientConfig] at hget
            · intro ev hev hact
              simp [resolveTarget, hb] at hev
              rcases hev with h | h | h | h <;> subst h <;>
                simp [isSwitchActuation] at hact
      | ok u =>
          cases u
          cases hact0 : c.actuation with
          | error e =>
              rw [continuation_switchFailed env o ncid method e c s hsw heq ha
                hact0]
              refine ⟨_, _, _, rfl, ?_, ?_⟩
              · intro cid hb
                constructor
                · simp [resolveTarget, hb, switchEvent, isGetClientConfig,
                    List.countP_cons, List.countP_append]
                · intro ev hev hact
                  simp [resolveTarget, hb, switchEvent] at hev
                  rcases hev with h | h | h | h <;> subst h <;>
                    first
                    | rfl
                    | simp [isSwitchActuation] at hact
              · intro hb hcf
                refine ⟨?_, ?_, ?_⟩
                · simp [resolveTarget, hb, switchEvent, isGetClientConfig,
                    List.countP_cons, List.countP_append]
                · intro ev hev hget
                  simp [resolveTarget, hb, switchEvent] at hev
                  rcases hev with h | h | h | h | h <;> subst h <;>
                    first
                    | rfl
                    | simp [isGetClientConfig] at hget
                · intro ev hev hact
                  simp [resolveTarget, hb, switchEvent] at hev
                  rcases hev with h | h | h | h | h <;> subst h <;>
                    first
                    | rfl
                    | simp [isSwitchActuation] at hact
          | ok u2 =>
              cases u2
              cases hsd : c.setDomain with
              | error e =>
                  rw [continuation_domainFailed env o ncid method e c s hsw heq
                    ha hact0 hsd]
                  refine ⟨_, _, _, rfl, ?_, ?_⟩
                  · intro cid hb
                    constructor
                    · simp [resolveTarget, hb, switchEvent, isGetClientConfig,
                        List.countP_cons, List.countP_append]
                    · intro ev hev hact
                      simp [resolveTarget, hb, switchEvent] at hev
                      rcases hev with h | h | h | h | h <;> subst h <;>
                        first
                        | rfl
                        | simp [isSwitchActuation] at hact
                  · intro hb hcf
                    refine ⟨?_, ?_, ?_⟩
                    · simp [resolveTarget, hb, switchEvent, isGetClientConfig,
                        List.countP_cons, List.countP_append]
                    · intro ev hev hget
                      simp [resolveTarget, hb, switchEvent] at hev
                      rcases hev with h | h | h | h | h | h <;> subst h <;>
                        first
                        | rfl
                        | simp [isGetClientConfig] at hget
                    · intro ev hev hact
                      simp [resolveTarget, hb, switchEvent] at hev
                      rcases hev with h | h | h | h | h | h <;> subst h <;>
                        first
                        | rfl
                        | simp [isSwitchActuation] at hact
              | ok u3 =>
                  cases u3
                  rw [continuation_approved env o ncid method c s hsw heq ha
                    hact0 hsd]
                  refine ⟨_, _, _, rfl, ?_, ?_⟩
                  · intro cid hb
                    constructor
                    · simp [resolveTarget, hb, switchEvent, isGetClientConfig,
                        List.countP_cons, List.countP_append]
                    · intro ev hev hact
                      simp [resolveTarget, hb, switchEvent] at hev
                      rcases hev with h | h | h | h | h | h <;> subst h <;>
                        first
                        | rfl
                        | simp [isSwitchActuation] at hact
                  · intro hb hcf
                    refine ⟨?_, ?_, ?_⟩
                    · simp [resolveTarget, hb, switchEvent, isGetClientConfig,
                        List.countP_cons, List.countP_append]
                    · intro ev hev hget
                      simp [resolveTarget, hb, switchEvent] at hev
                      rcases hev with h | h | h | h | h | h | h <;> subst h <;>
                        first
                        | rfl
                        | simp [isGetClientConfig] at hget
                    · intro ev hev hact
                      simp [resolveTarget, hb, switchEvent] at hev
                      rcases hev with h | h | h | h | h | h | h <;> subst h <;>
                        first
                        | rfl
                        | simp [isSwitchActuation] at hact

/-! ## Witnesses: each claim theorem applied at a concrete input drawn
from the test suite. -/

/-- Witness for C6 at the `wallet_switchEthereumChain` request of the
test suite. -/
theorem c6_witness :
    middleware ⟨true, fun x => "0x1"⟩
        ⟨1, "wallet_switchEthereumChain", some "example.com", some "mainnet"⟩
        ⟨.ok (), .ok (), .ok ()⟩ ⟨"0x1", []⟩
      = .ok (⟨[.enqueueRequest, .callNext], none⟩, ⟨"0x1", []⟩) :=
  c6_switch_request_skips_checks ⟨true, fun x => "0x1"⟩ 1 "example.com"
    "mainnet" "wallet_switchEthereumChain" ⟨.ok (), .ok (), .ok ()⟩ ⟨"0x1", []⟩ rfl (by decide)

/-- Witness for C8 at the `eth_chainId` request of the test suite. -/
theorem c8_witness :
    middleware ⟨true, fun x => "0x1"⟩
        ⟨1, "eth_chainId", some "example.com", some "mainnet"⟩
        ⟨.ok (), .ok (), .ok ()⟩ ⟨"0x1", []⟩
      = .ok (⟨[.callNext], none⟩, ⟨"0x1", []⟩) :=
  c8_bypass_direct ⟨true, fun x => "0x1"⟩ 1 "example.com" "mainnet"
    "eth_chainId" ⟨.ok (), .ok (), .ok ()⟩ ⟨"0x1", []⟩ rfl (by decide)

/-- Witness for C9 with the queueing flag disabled. -/
theorem c9_witness :
    middleware ⟨false, fun x => "0x1"⟩
        ⟨1, "eth_sendTransaction", some "example.com", some "mainnet"⟩
        ⟨.ok (), .ok (), .ok ()⟩ ⟨"0x1", []⟩
      = .ok (⟨[.callNext], none⟩, ⟨"0x1", []⟩) :=
  c9_queue_disabled_direct ⟨false, fun x => "0x1"⟩ 1 "example.com" "mainnet"
    "eth_sendTransaction" ⟨.ok (), .ok (), .ok ()⟩ ⟨"0x1", []⟩ rfl

/-- Witness for C7 at an `eth_sendTransaction` request whose target
(`mainnet`, chain `0x1`) already equals the global chain. -/
theorem c7_witness :
    ∃ evs, middleware ⟨true, fun x => "0x1"⟩
        ⟨1, "eth_sendTransaction", some "example.com", some "mainnet"⟩
        ⟨.ok (), .ok (), .ok ()⟩ ⟨"0x1", []⟩
      = .ok (⟨evs, none⟩, ⟨"0x1", []⟩) ∧
      MwEvent.enqueueRequest ∈ evs ∧ MwEvent.callNext ∈ evs ∧
      evs.countP isApprovalCall = 0 :=
  c7_same_chain_no_approval ⟨true, fun x => "0x1"⟩ 1 "example.com" "mainnet"
    "eth_sendTransaction" ⟨.ok (), .ok (), .ok ()⟩ ⟨"0x1", []⟩ rfl (by decide) (by decide)

/-- Witness for C2 at an `eth_sendTransaction` request targeting `0x1`
while the global chain is `0x5`, with the approval granted. -/
theorem c2_witness :
    ∃ evs err s',
      middleware ⟨true, fun x => "0x1"⟩
          ⟨1, "eth_sendTransaction", some "example.com", some "mainnet"⟩
          ⟨.ok (), .ok (), .ok ()⟩ ⟨"0x5", []⟩
        = .ok (⟨evs, err⟩, s') ∧
      evs.countP isApprovalCall = 1 ∧
      ((Except.ok () : Except String Unit) = .ok () →
        evs.countP isSwitchActuation = 1) ∧
      ((Except.ok () : Except String Unit) = .ok () →
        (Except.ok () : Except String Unit) = .ok () →
        (Except.ok () : Except String Unit) = .ok () →
        ∃ pre, evs = pre ++ [.callNext] ∧
          pre.countP isSwitchActuation = 1 ∧ pre.countP isSetDomainCall = 1 ∧
          MwEvent.callNext ∉ pre) ∧
      ((Except.ok () : Except String Unit) = .ok () →
        ∀ e, (Except.ok () : Except String Unit) = .error e →
        err = some e ∧ evs.countP isSetDomainCall = 0 ∧
        MwEvent.callNext ∉ evs) ∧
      ((Except.ok () : Except String Unit) = .ok () →
        (Except.ok () : Except String Unit) = .ok () →
        ∀ e, (Except.ok () : Except String Unit) = .error e →
        err = some e ∧ MwEvent.callNext ∉ evs) :=
  c2_requires_switch_flow ⟨true, fun x => "0x1"⟩ 1 "example.com" "mainnet"
    "eth_sendTransaction" ⟨.ok (), .ok (), .ok ()⟩ ⟨"0x5", []⟩ rfl (by decide)
    (by decide)

/-- Witness for C3: the rejected request of the concurrency test (first
approval rejected, second granted), plus the isolation property on that
concrete two-request run. -/
theorem c3_witness :
    (∃ evs, middleware ⟨true, fun x => "0x1"⟩
        ⟨1, "eth_sendTransaction", some "example.com", some "mainnet"⟩
        ⟨.error "big bad rejected", .ok (), .ok ()⟩ ⟨"0x5", []⟩
      = .ok (⟨evs, some "big bad rejected"⟩, ⟨"0x5", []⟩) ∧
      MwEvent.callNext ∉ evs ∧
      ∀ x y, MwEvent.setNetworkClientIdForDomain x y ∉ evs) ∧
    (List.Forall₂
      (fun (p : MwRequest × CallOutcomes)
          (r : Except MwFailure MwOutcome) => errorFromOwnOutcomes p.2 r)
      [(⟨1, "eth_sendTransaction", some "example.com", some "mainnet"⟩,
          (⟨.error "big bad rejected", .ok (), .ok ()⟩ : CallOutcomes)),
        (⟨2, "eth_sendTransaction", some "example.com", some "mainnet"⟩,
          (⟨.ok (), .ok (), .ok ()⟩ : CallOutcomes))]
      (runRequests ⟨true, fun x => "0x1"⟩ ⟨"0x5", []⟩
        [(⟨1, "eth_sendTransaction", some "example.com", some "mainnet"⟩,
            (⟨.error "big bad rejected", .ok (), .ok ()⟩ : CallOutcomes)),
          (⟨2, "eth_sendTransaction", some "example.com", some "mainnet"⟩,
            (⟨.ok (), .ok (), .ok ()⟩ : CallOutcomes))]).1 ∧
      (runRequests ⟨true, fun x => "0x1"⟩ ⟨"0x5", []⟩
        [(⟨1, "eth_sendTransaction", some "example.com", some "mainnet"⟩,
            (⟨.error "big bad rejected", .ok (), .ok ()⟩ : CallOutcomes)),
          (⟨2, "eth_sendTransaction", some "example.com", some "mainnet"⟩,
            (⟨.ok (), .ok (), .ok ()⟩ : CallOutcomes))]).1.length = 2) :=
  ⟨c3_rejection_isolated.1 (⟨true, fun x => "0x1"⟩ : Env) 1 "example.com"
      "mainnet" "eth_sendTransaction" "big bad rejected"
      (⟨.error "big bad rejected", .ok (), .ok ()⟩ : CallOutcomes)
      (⟨"0x5", []⟩ : SharedState) rfl (by decide) (by decide) rfl,
    c3_rejection_isolated.2 (⟨true, fun x => "0x1"⟩ : Env)
      (⟨"0x5", []⟩ : SharedState)
      [(⟨1, "eth_sendTransaction", some "example.com", some "mainnet"⟩,
          (⟨.error "big bad rejected", .ok (), .ok ()⟩ : CallOutcomes)),
        (⟨2, "eth_sendTransaction", some "example.com", some "mainnet"⟩,
          (⟨.ok (), .ok (), .ok ()⟩ : CallOutcomes))]⟩

/-- Witness for the amended C4 at the two single-field-missing requests
of the test suite. -/
theorem c4_witness :
    middleware ⟨false, fun x => "0x1"⟩
        ⟨0, "anything", none, some "anything"⟩ ⟨.ok (), .ok (), .ok ()⟩ ⟨"0x1", []⟩
      = .error .missingOrigin ∧
    middleware ⟨false, fun x => "0x1"⟩
        ⟨0, "anything", some "anything", none⟩ ⟨.ok (), .ok (), .ok ()⟩ ⟨"0x1", []⟩
      = .error .missingNetworkClientId :=
  ⟨(c4_missing_field_errors ⟨false, fun x => "0x1"⟩
      ⟨0, "anything", none, some "anything"⟩ ⟨.ok (), .ok (), .ok ()⟩ ⟨"0x1", []⟩).1 rfl,
    (c4_missing_field_errors ⟨false, fun x => "0x1"⟩
      ⟨0, "anything", some "anything", none⟩ ⟨.ok (), .ok (), .ok ()⟩ ⟨"0x1", []⟩).2.1
      "anything" rfl rfl⟩

/-- Witness for the amended C5 at a custom-network request
(`custom-rpc.com`) and a built-in-network request (`mainnet`). -/
theorem c5_witness :
    (∃ evs err s',
      middleware ⟨true, fun x => "0x1234"⟩
          ⟨1, "eth_sendTransaction", some "example.com", some "custom-rpc.com"⟩
          ⟨.ok (), .ok (), .ok ()⟩ ⟨"0x1", []⟩
        = .ok (⟨evs, err⟩, s') ∧
      (∀ cid, builtInChainId "custom-rpc.com" = some cid →
        evs.countP isGetClientConfig = 0 ∧
        ∀ ev ∈ evs, isSwitchActuation ev = true → ev = .setProviderType cid) ∧
      (builtInChainId "custom-rpc.com" = none →
        classify "eth_sendTransaction" = .RequiresConfirmation →
        evs.countP isGetClientConfig = 1 ∧
        (∀ ev ∈ evs, isGetClientConfig ev = true →
          ev = .getNetworkClientById "custom-rpc.com") ∧
        (∀ ev ∈ evs, isSwitchActuation ev = true →
          ev = .setActiveNetwork "custom-rpc.com"))) ∧
    (∃ evs err s',
      middleware ⟨true, fun x => "0x1"⟩
          ⟨2, "eth_sendTransaction", some "example.com", some "mainnet"⟩
          ⟨.ok (), .ok (), .ok ()⟩ ⟨"0x5", []⟩
        = .ok (⟨evs, err⟩, s') ∧
      (∀ cid, builtInChainId "mainnet" = some cid →
        evs.countP isGetClientConfig = 0 ∧
        ∀ ev ∈ evs, isSwitchActuation ev = true → ev = .setProviderType cid) ∧
      (builtInChainId "mainnet" = none →
        classify "eth_sendTransaction" = .RequiresConfirmation →
        evs.countP isGetClientConfig = 1 ∧
        (∀ ev ∈ evs, isGetClientConfig ev = true →
          ev = .getNetworkClientById "mainnet") ∧
        (∀ ev ∈ evs, isSwitchActuation ev = true →
          ev = .setActiveNetwork "mainnet"))) :=
  ⟨c5_network_paths ⟨true, fun x => "0x1234"⟩ 1 "example.com" "custom-rpc.com"
      "eth_sendTransaction" ⟨.ok (), .ok (), .ok ()⟩ ⟨"0x1", []⟩ rfl (by decide),
    c5_network_paths ⟨true, fun x => "0x1"⟩ 2 "example.com" "mainnet"
      "eth_sendTransaction" ⟨.ok (), .ok (), .ok ()⟩ ⟨"0x5", []⟩ rfl (by decide)⟩

end QRC
